import Mathlib

/-!
# Verification of `perdir` (src/perdir/main.py)

A shallow embedding of the perdir command runner in Lean 4, together with
theorems settling the specification claims about it.

`perdir` executes one user-supplied command in each of a set of directories,
bounding concurrency with an `asyncio.Semaphore`, capturing each invocation's
combined stdout/stderr, printing one colored report per completed task, and
exiting 0 iff every task exited 0.

The embedding translates the Python source function by function:
* `ParallelismArgumentType.call` — the `--parallel` argument converter;
* `mainWorkerCount` / `mainValidPaths` — the capacity and task-set computation
  in `main()`;
* `ExecuteCommand.*` — the per-task executor (`do`, `_is_shell_command`,
  `_execute_command_w_shell` / `_wo_shell`, `_determine_success`,
  `_print_result`);
* `pyDecodeUtf8` — `bytes.decode('utf8', errors=...)`;
* `pyRstrip` — `str.rstrip()`;
* `schedulerRun` / `perdirRun` — the `asyncio.as_completed` aggregation loop
  and the surrounding `main()` / `entrypoint()` control flow;
* `SignalHandler.handle` — the SIGINT/SIGTERM handler;
* `SemStep` — a small-step model of the semaphore-bounded task scheduling.

Exceptions raised by Python code are modelled with `Except`; each Python value
that matters to the claims is given an explicit Lean counterpart.
-/

namespace Perdir

/-! ## Python string primitives used by the source -/

/-- Python `str.isspace()` membership for the characters relevant here:
the ASCII whitespace characters stripped by `str.rstrip()`
(space, tab, linefeed, carriage return, vertical tab, form feed). -/
def pyIsSpace (c : Char) : Bool :=
  c = ' ' || c = '\t' || c = '\n' || c = '\x0d' || c = '\x0b' || c = '\x0c'

/-- Python `str.rstrip()` with no argument: remove all trailing whitespace. -/
def pyRstrip (s : String) : String :=
  String.mk ((s.data.reverse.dropWhile pyIsSpace).reverse)

/-- Python `str.isdigit()` restricted to ASCII input (command-line argument
strings): nonempty and every character a decimal digit. -/
def pyIsDigit (s : String) : Bool :=
  !s.data.isEmpty && s.data.all (fun c => '0' ≤ c && c ≤ '9')

/-- Python `int(s)` on a string of ASCII decimal digits. -/
def pyIntOfDigits (s : String) : Nat :=
  s.data.foldl (fun acc c => 10 * acc + (c.toNat - '0'.toNat)) 0

/-- `os.linesep` on the POSIX platforms perdir targets. -/
def osLinesep : String := "\n"

/-- `termcolor.colored(text, color=c)`: wrap `text` in the ANSI escape
sequence for color `c` (green is SGR 32, red is SGR 31). -/
def colored (text : String) (color : String) : String :=
  let code := if color = "green" then "32" else if color = "red" then "31" else "0"
  "\x1b[" ++ code ++ "m" ++ text ++ "\x1b[0m"

/-! ## The `--parallel` argument type (`ParallelismArgumentType.__call__`) -/

/-- The parsed value of the `--parallel` option: `int(value)` when
`value.isdigit()`, or the sentinel string `'all'`. -/
inductive Parallelism where
  | num (n : Nat)
  | all
  deriving DecidableEq, Repr

/-- `PARALLELISM_ALL = 'all'`. -/
def PARALLELISM_ALL : String := "all"

namespace ParallelismArgumentType

/-- `ParallelismArgumentType.__call__(self, value)`:
`int(value)` if `value.isdigit()`, the string itself if it equals `'all'`,
otherwise `raise ValueError()` (modelled as `Except.error`). -/
def call (value : String) : Except Unit Parallelism :=
  if pyIsDigit value then Except.ok (Parallelism.num (pyIntOfDigits value))
  else if value = PARALLELISM_ALL then Except.ok Parallelism.all
  else Except.error ()

end ParallelismArgumentType

/-! ## `main()`'s path filtering and worker-count computation -/

/-- One command-line path argument together with the result its `is_dir()`
probe would give on the current filesystem. -/
structure PathInfo where
  name : String
  is_dir : Bool
  deriving DecidableEq, Repr

/-- `worker_count = len(args.paths) if args.parallel == PARALLELISM_ALL else
args.parallel` — computed from the *unfiltered* `args.paths`. -/
def mainWorkerCount (parallel : Parallelism) (argPaths : List PathInfo) : Nat :=
  match parallel with
  | Parallelism.all => argPaths.length
  | Parallelism.num n => n

/-- `paths = [path for path in args.paths if path.is_dir()]`. -/
def mainValidPaths (argPaths : List PathInfo) : List PathInfo :=
  argPaths.filter (fun p => p.is_dir)

/-- One `ExecuteCommand` task is created per element of `paths`. -/
def mainTaskCount (argPaths : List PathInfo) : Nat :=
  (mainValidPaths argPaths).length

/-! ## `bytes.decode('utf8', errors=...)`

The captured subprocess output is decoded with
`temporary_file.read().decode('utf8', errors='replace')`.  We model the
CPython UTF-8 codec: a decoder that either raises (`errors='strict'`) or
substitutes U+FFFD for each maximal invalid subpart (`errors='replace'`). -/

/-- The `errors=` argument of `bytes.decode` as used by the source. -/
inductive Utf8Errors where
  | strict
  | replace
  deriving DecidableEq, Repr

/-- U+FFFD REPLACEMENT CHARACTER. -/
def replacementChar : Char := Char.ofNat 0xFFFD

/-- A UTF-8 continuation byte: `0x80 ≤ b ≤ 0xBF`. -/
def utf8Cont (b : Nat) : Bool := 0x80 ≤ b && b ≤ 0xBF

/-- Decode one UTF-8 sequence whose lead byte is `b0` and whose following
bytes are `rest`.  Returns the decoded scalar (or an error for an invalid
or truncated sequence) and how many bytes of `rest` belong to the sequence
(for an error, the remainder of the maximal valid subpart, which the
`replace` handler substitutes as a single U+FFFD). -/
def utf8Step (b0 : Nat) (rest : List Nat) : Except Unit Char × Nat :=
  if b0 ≤ 0x7F then
    (Except.ok (Char.ofNat b0), 0)
  else if 0xC2 ≤ b0 && b0 ≤ 0xDF then
    match rest with
    | b1 :: _ =>
      if utf8Cont b1 then
        (Except.ok (Char.ofNat ((b0 - 0xC0) * 0x40 + (b1 - 0x80))), 1)
      else (Except.error (), 0)
    | [] => (Except.error (), 0)
  else if 0xE0 ≤ b0 && b0 ≤ 0xEF then
    -- the first continuation range excludes overlong encodings (lead 0xE0)
    -- and surrogates (lead 0xED)
    let lo := if b0 = 0xE0 then 0xA0 else 0x80
    let hi := if b0 = 0xED then 0x9F else 0xBF
    match rest with
    | b1 :: b2 :: _ =>
      if lo ≤ b1 && b1 ≤ hi then
        if utf8Cont b2 then
          (Except.ok (Char.ofNat ((b0 - 0xE0) * 0x1000 + (b1 - 0x80) * 0x40 + (b2 - 0x80))), 2)
        else (Except.error (), 1)
      else (Except.error (), 0)
    | [b1] => if lo ≤ b1 && b1 ≤ hi then (Except.error (), 1) else (Except.error (), 0)
    | [] => (Except.error (), 0)
  else if 0xF0 ≤ b0 && b0 ≤ 0xF4 then
    -- the first continuation range excludes overlong encodings (lead 0xF0)
    -- and scalars beyond U+10FFFF (lead 0xF4)
    let lo := if b0 = 0xF0 then 0x90 else 0x80
    let hi := if b0 = 0xF4 then 0x8F else 0xBF
    match rest with
    | b1 :: b2 :: b3 :: _ =>
      if lo ≤ b1 && b1 ≤ hi then
        if utf8Cont b2 then
          if utf8Cont b3 then
            (Except.ok (Char.ofNat
              ((b0 - 0xF0) * 0x40000 + (b1 - 0x80) * 0x1000 + (b2 - 0x80) * 0x40 + (b3 - 0x80))), 3)
          else (Except.error (), 2)
        else (Except.error (), 1)
      else (Except.error (), 0)
    | [b1, b2] =>
      if lo ≤ b1 && b1 ≤ hi then
        if utf8Cont b2 then (Except.error (), 2) else (Except.error (), 1)
      else (Except.error (), 0)
    | [b1] => if lo ≤ b1 && b1 ≤ hi then (Except.error (), 1) else (Except.error (), 0)
    | [] => (Except.error (), 0)
  else
    (Except.error (), 0)

/-- The decoding loop: consume one sequence at a time; in `strict` mode an
invalid sequence raises `UnicodeDecodeError`, in `replace` mode it becomes
one U+FFFD and decoding continues.  Recursion is fuelled so the kernel can
evaluate it; every iteration consumes the lead byte plus `step.2` more, so
`fuel = bs.length` always suffices and the out-of-fuel branch is dead code
(`utf8DecodeFuel_replace_isOk` certifies this for the `replace` mode the
source uses; the branch deliberately returns an error so that theorem has
content). -/
def utf8DecodeFuel (errors : Utf8Errors) : Nat → List Nat → Except Unit (List Char)
  | _, [] => Except.ok []
  | 0, _ :: _ => Except.error ()
  | fuel + 1, b0 :: rest =>
    let step := utf8Step b0 rest
    match step.1 with
    | Except.ok c =>
      (utf8DecodeFuel errors fuel (rest.drop step.2)).map (fun cs => c :: cs)
    | Except.error _ =>
      match errors with
      | Utf8Errors.strict => Except.error ()
      | Utf8Errors.replace =>
        (utf8DecodeFuel errors fuel (rest.drop step.2)).map (fun cs => replacementChar :: cs)

/-- `bs.decode('utf8', errors=errors)`. -/
def pyDecodeUtf8 (bs : List Nat) (errors : Utf8Errors) : Except Unit String :=
  (utf8DecodeFuel errors bs.length bs).map String.mk

/-! ## The `ExecuteCommand` task -/

/-- The environment's answer when a task tries to spawn its child process:
either the process is created and eventually exits with `exitCode`, leaving
`rawOutput` in the temporary file, or process creation itself fails
(program not found / not executable), in which case
`asyncio.create_subprocess_shell/_exec` raises an `OSError` that nothing in
the source catches. -/
inductive SpawnOutcome where
  | spawned (exitCode : Int) (rawOutput : List Nat)
  | spawnFailure
  deriving Repr

/-- What one `print(...)` call inside `_print_result` wrote (with `print`'s
terminating newline), plus whether `sys.stdout.flush()` followed it. -/
structure PrintOutput where
  text : String
  flushed : Bool
  deriving DecidableEq, Repr

namespace ExecuteCommand

/-- `ExecuteCommand._is_shell_command`: `len(self._command) == 1`. -/
def isShellCommand (command : List String) : Bool := command.length == 1

/-- The child-process API `do` selects. -/
inductive ChildCall where
  | shell (cmd : String)          -- create_subprocess_shell(command[0], ...)
  | exec (argv : List String)     -- create_subprocess_exec(*command, ...)
  deriving DecidableEq, Repr

/-- The keyword arguments common to both spawn sites. -/
structure SubprocessInvocation where
  call : ChildCall
  cwd : String                    -- cwd=self._path.absolute()
  stderrMergedToStdout : Bool     -- stderr=STDOUT
  outputCaptured : Bool           -- stdout=temporary_file
  deriving DecidableEq, Repr

/-- The subprocess invocation `do` makes for a task: `_execute_command_w_shell`
when `_is_shell_command()` holds (exactly one token), otherwise
`_execute_command_wo_shell`; both run in the task's directory with stderr
redirected into the captured stdout stream. -/
def subprocessInvocation (path : String) (command : List String) : SubprocessInvocation :=
  if isShellCommand command then
    { call := ChildCall.shell (command.headD ""), cwd := path,
      stderrMergedToStdout := true, outputCaptured := true }
  else
    { call := ChildCall.exec command, cwd := path,
      stderrMergedToStdout := true, outputCaptured := true }

/-- The shared body of `_execute_command_w_shell` / `_execute_command_wo_shell`:
spawn the child (a spawn failure raises), `await proc.wait()` for the exit
code, and decode the temporary file's bytes with `errors='replace'`.
Sets `self._exit_code` and `self._output`. -/
def executeCommand (outcome : SpawnOutcome) : Except Unit (Int × String) :=
  match outcome with
  | SpawnOutcome.spawned ec raw =>
    match pyDecodeUtf8 raw Utf8Errors.replace with
    | Except.ok s => Except.ok (ec, s)
    | Except.error e => Except.error e
  | SpawnOutcome.spawnFailure => Except.error ()

/-- `ExecuteCommand._determine_success`: `self._exit_code == 0`. -/
def determineSuccess (exitCode : Int) : Bool := exitCode == 0

/-- `ExecuteCommand._print_result`: one `print(...)` call building the whole
report string, then `sys.stdout.flush()`. -/
def printResult (path : String) (failedOnly : Bool) (success : Bool)
    (exitCode : Int) (output : String) : PrintOutput :=
  if success then
    let headline := colored (">> " ++ path) "green"
    if failedOnly then
      { text := headline ++ "\n", flushed := true }
    else
      { text := headline ++ osLinesep ++ pyRstrip output ++ osLinesep ++ "\n", flushed := true }
  else
    let headline := colored (">> " ++ path ++ " (" ++ toString exitCode ++ ")") "red"
    { text := headline ++ osLinesep ++ pyRstrip output ++ osLinesep ++ "\n", flushed := true }

/-- `ExecuteCommand.do`: inside `async with self._semaphore`, execute the
command, determine success, print the result, and return `self._success`.
An exception from the spawn propagates out of `do` (the `async with` still
releases the semaphore): `_determine_success` and `_print_result` never run
for that task. -/
def «do» (path : String) (failedOnly : Bool) (outcome : SpawnOutcome) :
    Except Unit (Bool × PrintOutput) :=
  match executeCommand outcome with
  | Except.error e => Except.error e
  | Except.ok (exitCode, output) =>
    let success := determineSuccess exitCode
    Except.ok (success, printResult path failedOnly success exitCode output)

end ExecuteCommand

/-! ## The `main()` aggregation loop and `entrypoint()` -/

/-- The `for i, task in enumerate(asyncio.as_completed(tasks), 1)` loop with
its running `tasks_failed` flag.  `completions` is the list of task results
in completion order; a normal completion has already printed its report
inside `do`, while `await task` re-raises a task's exception and aborts the
loop (reports of tasks completing after the raise are lost with the run).
Returns the reports observed before the run ended, and either `main()`'s
return value (`1 if tasks_failed else 0`) or the propagated exception. -/
def schedulerGo (tasksFailed : Bool)
    (completions : List (Except Unit (Bool × PrintOutput))) :
    List PrintOutput × Except Unit Nat :=
  match completions with
  | [] => ([], Except.ok (if tasksFailed then 1 else 0))
  | Except.error e :: _ => ([], Except.error e)
  | Except.ok (success, report) :: rest =>
    let r := schedulerGo (tasksFailed || !success) rest
    (report :: r.1, r.2)

/-- The loop starts with `tasks_failed = False`; with zero tasks the loop
body is skipped entirely (`if tasks:`) and `main()` returns 0. -/
def schedulerRun (completions : List (Except Unit (Bool × PrintOutput))) :
    List PrintOutput × Except Unit Nat :=
  schedulerGo false completions

/-- The inputs `main()` receives from `argparse` / `split_argv`. -/
structure CliArgs where
  parallelValue : String          -- the raw --parallel value (or its env default)
  paths : List PathInfo           -- args.paths, each with its is_dir() answer
  cmdArgv : List String           -- everything after the -- separator
  failed_output_only : Bool
  deriving Repr

/-- How one whole run ends. -/
inductive RunOutcome where
  | configError                                       -- argparse error: no task ever runs
  | finished (reports : List PrintOutput) (exitStatus : Nat)
  | abortedByException (reports : List PrintOutput)   -- a task exception reached asyncio.run
  | deadlocked                                        -- every task blocked forever on the semaphore
  deriving Repr

/-- `main()` followed by `entrypoint()`: parse the parallelism value (a
`ValueError` from the type converter is an argparse error), require a
command, compute `worker_count` from the parsed parallelism and the
*unfiltered* `args.paths`, filter `args.paths` to the existing directories,
create one `ExecuteCommand` task per remaining path over
`asyncio.Semaphore(worker_count)`, and drive the completion loop.
`outcomeOf` is the environment: what spawning the command in each directory
does.

The Admission Controller appears here through its single effect on the
run's final outcome: with capacity 0 and at least one task, every task
blocks forever inside `async with self._semaphore`, the first `await` of
the `as_completed` loop never resolves, and the process never exits
(`deadlocked`).  With nonzero capacity every task is eventually admitted,
so the aggregate exit status and the zero-task behaviour do not depend on
the capacity or on completion order; completions are modelled in task
order. -/
def perdirRun (args : CliArgs) (outcomeOf : String → SpawnOutcome) : RunOutcome :=
  match ParallelismArgumentType.call args.parallelValue with
  | Except.error _ => RunOutcome.configError
  | Except.ok parallel =>
    if args.cmdArgv.isEmpty then RunOutcome.configError
    else
      let workerCount := mainWorkerCount parallel args.paths
      let paths := mainValidPaths args.paths
      if workerCount = 0 ∧ paths ≠ [] then RunOutcome.deadlocked
      else
        let completions := paths.map fun p =>
          ExecuteCommand.«do» p.name args.failed_output_only (outcomeOf p.name)
        match schedulerRun completions with
        | (reports, Except.ok exitStatus) => RunOutcome.finished reports exitStatus
        | (reports, Except.error _) => RunOutcome.abortedByException reports

/-- The status the operating system sees: `entrypoint()` does
`sys.exit(asyncio.run(main()))`; an argparse error is `SystemExit(2)`; an
uncaught task exception makes the interpreter print a traceback and exit 1;
a deadlocked run never exits, so there is no status at all. -/
def processExitStatus : RunOutcome → Option Nat
  | RunOutcome.configError => some 2
  | RunOutcome.finished _ code => some code
  | RunOutcome.abortedByException _ => some 1
  | RunOutcome.deadlocked => none

/-! ## The signal handler -/

/-- What `SignalHandler.handle` does to the process. -/
structure HandlerEffect where
  printedText : String
  exitStatus : Nat
  deriving DecidableEq, Repr

namespace SignalHandler

/-- `SignalHandler.handle(self, _signum=None, _frame=None)`:
`cprint("Interrupt received. Aborting.", color='red')` then `sys.exit(1)`.
Both parameters are ignored, and no run state is consulted: the effect is
the same however many tasks have completed, and `sys.exit` fires at once —
no in-flight task is awaited. -/
def handle (_signum : Option Nat) (_frame : Option Unit) : HandlerEffect :=
  { printedText := colored "Interrupt received. Aborting." "red" ++ "\n"
    exitStatus := 1 }

end SignalHandler

/-- `signal.SIGINT`. -/
def SIGINT : Nat := 2

/-- `signal.SIGTERM`. -/
def SIGTERM : Nat := 15

/-- `main()` installs `signal_handler.handle` for exactly these signals. -/
def installedSignals : List Nat := [SIGINT, SIGTERM]

/-! ## The semaphore-bounded scheduling, as a transition system

`main()` creates `asyncio.Semaphore(worker_count)`; every task's `do` wraps
its whole body in `async with self._semaphore`, so each task acquires one
slot before executing and releases it when the block exits — on normal
return and on exception alike. -/

/-- A configuration of the run: tasks still waiting to acquire the
semaphore, tasks inside the `async with` block, finished tasks, and the
semaphore's free-slot count. -/
structure SemState where
  waiting : Nat
  active : Nat
  finished : Nat
  slots : Nat
  deriving DecidableEq, Repr

/-- The initial configuration: `taskCount` created tasks, none started,
`asyncio.Semaphore(workerCount)` full. -/
def initSemState (taskCount workerCount : Nat) : SemState :=
  { waiting := taskCount, active := 0, finished := 0, slots := workerCount }

/-- One event of the run.  `acquire`: a waiting task enters
`async with self._semaphore`, which suspends until a slot is free, then
takes it.  `finish`: an active task's body ends — normally
(`raised = false`) or by an exception escaping `do` (`raised = true`) —
and the `async with` exit releases its slot either way. -/
inductive SemStep : SemState → SemState → Prop where
  | acquire (s : SemState) (hw : 0 < s.waiting) (hs : 0 < s.slots) :
      SemStep s { waiting := s.waiting - 1, active := s.active + 1,
                  finished := s.finished, slots := s.slots - 1 }
  | finish (s : SemState) (raised : Bool) (ha : 0 < s.active) :
      SemStep s { waiting := s.waiting, active := s.active - 1,
                  finished := s.finished + 1, slots := s.slots + 1 }

/-- The configurations a run with `taskCount` tasks and capacity
`workerCount` can reach. -/
def SemReachable (taskCount workerCount : Nat) (s : SemState) : Prop :=
  Relation.ReflTransGen SemStep (initSemState taskCount workerCount) s

/-! ## Helper lemmas -/

theorem isOk_map {ε α β : Type} (x : Except ε α) (f : α → β) :
    (x.map f).isOk = x.isOk := by cases x <;> rfl

/-- With `errors='replace'`, the decoding loop never fails as long as its
fuel covers the input: every iteration consumes at least the lead byte. -/
theorem utf8DecodeFuel_replace_isOk :
    ∀ (fuel : Nat) (bs : List Nat), bs.length ≤ fuel →
      (utf8DecodeFuel Utf8Errors.replace fuel bs).isOk = true := by
  intro fuel
  induction fuel with
  | zero =>
    intro bs h
    cases bs with
    | nil => rfl
    | cons b rest => simp at h
  | succ fuel ih =>
    intro bs h
    cases bs with
    | nil => rfl
    | cons b0 rest =>
      have hlen : (rest.drop (utf8Step b0 rest).2).length ≤ fuel := by
        have := List.length_drop (utf8Step b0 rest).2 rest
        simp only [List.length_cons] at h
        omega
      have hrec := ih _ hlen
      rw [utf8DecodeFuel]
      cases hstep : (utf8Step b0 rest).1 with
      | ok c => simp only [hstep, isOk_map]; exact hrec
      | error e => simp only [hstep, isOk_map]; exact hrec

/-- `bytes.decode('utf8', errors='replace')` is total. -/
theorem pyDecodeUtf8_replace_ok (bs : List Nat) :
    ∃ s, pyDecodeUtf8 bs Utf8Errors.replace = Except.ok s := by
  have h := utf8DecodeFuel_replace_isOk bs.length bs (Nat.le_refl _)
  unfold pyDecodeUtf8
  cases hd : utf8DecodeFuel Utf8Errors.replace bs.length bs with
  | ok cs => exact ⟨String.mk cs, rfl⟩
  | error e => rw [hd] at h; simp [Except.toBool] at h

/-- Running the command when the spawn succeeds yields the exit code from
`proc.wait()` and some decoded output text. -/
theorem executeCommand_spawned (ec : Int) (raw : List Nat) :
    ∃ out, ExecuteCommand.executeCommand (SpawnOutcome.spawned ec raw) =
      Except.ok (ec, out) := by
  obtain ⟨s, hs⟩ := pyDecodeUtf8_replace_ok raw
  exact ⟨s, by rw [ExecuteCommand.executeCommand, hs]⟩

/-- A task whose spawn succeeds completes normally: it determines success
from the exit code and prints its report. -/
theorem do_spawned (path : String) (failedOnly : Bool) (ec : Int) (raw : List Nat) :
    ∃ out, ExecuteCommand.«do» path failedOnly (SpawnOutcome.spawned ec raw) =
      Except.ok (ExecuteCommand.determineSuccess ec,
        ExecuteCommand.printResult path failedOnly
          (ExecuteCommand.determineSuccess ec) ec out) := by
  obtain ⟨out, hout⟩ := executeCommand_spawned ec raw
  exact ⟨out, by rw [ExecuteCommand.«do», hout]⟩

theorem isEmpty_false_iff {α : Type} (l : List α) : l.isEmpty = false ↔ l ≠ [] := by
  cases l <;> simp

/-- If the head of `dropWhile p l` exists, it fails `p`. -/
theorem head?_dropWhile_not {α : Type} (p : α → Bool) :
    ∀ (l : List α) (c : α), (l.dropWhile p).head? = some c → p c = false := by
  intro l
  induction l with
  | nil => intro c h; simp [List.dropWhile] at h
  | cons a rest ih =>
    intro c h
    by_cases hpa : p a = true
    · rw [List.dropWhile_cons_of_pos hpa] at h
      exact ih c h
    · rw [List.dropWhile_cons_of_neg hpa] at h
      simp only [List.head?_cons, Option.some.injEq] at h
      subst h
      exact Bool.eq_false_iff.mpr hpa

/-- Dropping a prefix wholly satisfying `p` first. -/
theorem dropWhile_append_all {α : Type} (p : α → Bool) :
    ∀ (l₁ l₂ : List α), l₁.all p = true →
      List.dropWhile p (l₁ ++ l₂) = List.dropWhile p l₂ := by
  intro l₁
  induction l₁ with
  | nil => intro l₂ _; rfl
  | cons a rest ih =>
    intro l₂ h
    simp only [List.all_cons, Bool.and_eq_true] at h
    rw [List.cons_append, List.dropWhile_cons_of_pos h.1]
    exact ih l₂ h.2

/-- `str.rstrip()` ignores trailing whitespace already present. -/
theorem pyRstrip_append_ws (s t : String) (ht : t.data.all pyIsSpace = true) :
    pyRstrip (s ++ t) = pyRstrip s := by
  unfold pyRstrip
  have hdata : (s ++ t).data = s.data ++ t.data := rfl
  rw [hdata, List.reverse_append, dropWhile_append_all pyIsSpace _ _ (by
    rw [List.all_reverse]; exact ht)]

/-- The result of `str.rstrip()` has no trailing whitespace. -/
theorem pyRstrip_no_trailing (s : String) (c : Char)
    (h : (pyRstrip s).data.getLast? = some c) : pyIsSpace c = false := by
  unfold pyRstrip at h
  have hmk : (String.mk ((s.data.reverse.dropWhile pyIsSpace).reverse)).data
      = (s.data.reverse.dropWhile pyIsSpace).reverse := rfl
  rw [hmk, List.getLast?_reverse] at h
  exact head?_dropWhile_not pyIsSpace _ c h

/-- The aggregation loop over a run whose tasks all complete normally:
every report is collected and the result is `1` iff some task failed
(or a failure was already recorded). -/
theorem schedulerGo_map_ok (f : PathInfo → Except Unit (Bool × PrintOutput))
    (succ : PathInfo → Bool) :
    ∀ (paths : List PathInfo),
      (∀ p ∈ paths, ∃ r, f p = Except.ok (succ p, r)) → ∀ acc : Bool,
      ∃ reports, schedulerGo acc (paths.map f) =
        (reports, Except.ok (if acc || paths.any (fun p => !succ p) then 1 else 0)) ∧
        reports.length = paths.length := by
  intro paths
  induction paths with
  | nil =>
    intro _ acc
    exact ⟨[], by simp [schedulerGo], rfl⟩
  | cons p rest ih =>
    intro h acc
    obtain ⟨r, hr⟩ := h p (List.mem_cons_self p rest)
    obtain ⟨reports, hrep, hlen⟩ :=
      ih (fun q hq => h q (List.mem_cons_of_mem p hq)) (acc || !succ p)
    refine ⟨r :: reports, ?_, by simp [hlen]⟩
    simp only [List.map_cons, hr, schedulerGo, hrep, List.any_cons, Bool.or_assoc]

/-- The aggregation loop when some task's `await` re-raises: the reports of
the normally-completed tasks before it survive, the exception propagates,
and no aggregate is produced. -/
theorem schedulerGo_append_error (post : List (Except Unit (Bool × PrintOutput))) :
    ∀ (pre : List (Bool × PrintOutput)) (acc : Bool),
      schedulerGo acc (pre.map Except.ok ++ Except.error () :: post) =
        (pre.map Prod.snd, Except.error ()) := by
  intro pre
  induction pre with
  | nil => intro acc; rfl
  | cons x rest ih =>
    intro acc
    cases x with
    | mk s r =>
      simp only [List.map_cons, List.cons_append, schedulerGo, List.append_eq, ih]

/-- Conservation along every reachable configuration: held plus free slots
equal the capacity, and tasks are partitioned into waiting, active and
finished. -/
theorem semInvariant (taskCount workerCount : Nat) (s : SemState)
    (h : SemReachable taskCount workerCount s) :
    s.active + s.slots = workerCount ∧
    s.waiting + s.active + s.finished = taskCount := by
  induction h with
  | refl => exact ⟨by simp [initSemState], by simp [initSemState]⟩
  | tail _ hstep ih =>
    obtain ⟨ih1, ih2⟩ := ih
    cases hstep with
    | acquire hw hs => exact ⟨by dsimp only; omega, by dsimp only; omega⟩
    | finish raised ha => exact ⟨by dsimp only; omega, by dsimp only; omega⟩

/-! ## Claim theorems -/

/-- C1 (counterexample): a spawn failure is not reported the same as a
nonzero exit and is fatal to the run.  `do` propagates the exception
without ever calling `_print_result` (while a task with exit code 7
completes normally, report included); with directory "/a" and a command
that cannot be spawned, the scheduler's `await` re-raises, so the run ends
as an uncaught exception with zero reports and no aggregate, and pending
sibling tasks are cancelled with the event loop instead of running to
completion. -/
theorem c1_spawn_failure_cex :
    ExecuteCommand.«do» "/a" false SpawnOutcome.spawnFailure = Except.error () ∧
    schedulerRun [ExecuteCommand.«do» "/a" false SpawnOutcome.spawnFailure,
      ExecuteCommand.«do» "/b" false (SpawnOutcome.spawned 0 [])] = ([], Except.error ()) ∧
    perdirRun { parallelValue := "1", paths := [⟨"/a", true⟩],
                cmdArgv := ["nosuchprogram"], failed_output_only := false }
      (fun _ => SpawnOutcome.spawnFailure) = RunOutcome.abortedByException [] ∧
    (ExecuteCommand.«do» "/a" false (SpawnOutcome.spawned 7 [])).isOk = true :=
  ⟨rfl, rfl, rfl, rfl⟩

/-- C1 (amended): a task whose program cannot be spawned raises an uncaught
exception: that task produces no Output Reporter report and no success
value, and when the scheduler awaits it the exception propagates — only
the reports of tasks that completed normally before it survive, no
aggregate exit status is computed, and the run aborts instead of running
the remaining sibling tasks to completion. -/
theorem c1_spawn_failure_aborts (path : String) (failedOnly : Bool)
    (pre : List (Bool × PrintOutput)) (post : List (Except Unit (Bool × PrintOutput))) :
    ExecuteCommand.«do» path failedOnly SpawnOutcome.spawnFailure = Except.error () ∧
    schedulerRun (pre.map Except.ok ++ Except.error () :: post) =
      (pre.map Prod.snd, Except.error ()) :=
  ⟨rfl, schedulerGo_append_error post pre false⟩

/-- C2 (counterexample): with parallelism "all" and path arguments "/a" (a
directory) and "/b" (not a directory), the Admission Controller's capacity
is 2 while only 1 task is created: capacity is computed from the unfiltered
argument list, so it does not equal the number of tasks actually created. -/
theorem c2_capacity_neq_tasks_cex :
    mainWorkerCount Parallelism.all [⟨"/a", true⟩, ⟨"/b", false⟩] = 2 ∧
    mainTaskCount [⟨"/a", true⟩, ⟨"/b", false⟩] = 1 ∧
    mainWorkerCount Parallelism.all [⟨"/a", true⟩, ⟨"/b", false⟩] ≠
      mainTaskCount [⟨"/a", true⟩, ⟨"/b", false⟩] := by
  decide

/-- C2 (amended): with parallelism "all" the capacity equals the number of
*supplied* path arguments, counted before directory filtering; since one
task is created per path that is a directory, the capacity is at least the
number of tasks created — so all tasks may still run concurrently — and it
equals the task count exactly when every supplied path is a directory. -/
theorem c2_capacity_all_supplied_paths (argPaths : List PathInfo) :
    mainWorkerCount Parallelism.all argPaths = argPaths.length ∧
    mainTaskCount argPaths ≤ mainWorkerCount Parallelism.all argPaths ∧
    (argPaths.all (fun p => p.is_dir) = true →
      mainWorkerCount Parallelism.all argPaths = mainTaskCount argPaths) := by
  refine ⟨rfl, List.length_filter_le _ _, fun h => ?_⟩
  unfold mainWorkerCount mainTaskCount mainValidPaths
  rw [List.filter_eq_self.mpr]
  intro a ha
  exact (List.all_eq_true.mp h) a ha

/-- C2 witness: with a single supplied directory the amended capacity
equality is attained. -/
theorem c2_capacity_witness :
    mainWorkerCount Parallelism.all [⟨"/a", true⟩] = mainTaskCount [⟨"/a", true⟩] :=
  (c2_capacity_all_supplied_paths [⟨"/a", true⟩]).2.2 (by decide)

/-- C3 (counterexample): the value "0" is accepted by the parallelism
argument type — `"0".isdigit()` holds, so it converts to the integer 0 —
yet 0 is not a positive integer and "0" is not the sentinel "all", so
"accepted iff positive integer or 'all'" fails. -/
theorem c3_zero_accepted_cex :
    ParallelismArgumentType.call "0" = Except.ok (Parallelism.num 0) ∧
    ¬ 0 < 0 ∧ "0" ≠ PARALLELISM_ALL := by
  refine ⟨rfl, by omega, by decide⟩

/-- C3 (amended): a supplied parallelism value is accepted iff it is a
nonempty string of decimal digits — a *nonnegative* integer, zero
included — or the sentinel "all"; any other value raises `ValueError` in
the converter, which argparse surfaces as a configuration error before any
task runs, so the run never starts. -/
theorem c3_parallelism_accepted_iff (v : String) :
    ((ParallelismArgumentType.call v).isOk = true ↔
      ((v.data ≠ [] ∧ ∀ c ∈ v.data, '0' ≤ c ∧ c ≤ '9') ∨ v = "all")) ∧
    ((ParallelismArgumentType.call v).isOk = false →
      ∀ (args : CliArgs) (outcomeOf : String → SpawnOutcome),
        args.parallelValue = v → perdirRun args outcomeOf = RunOutcome.configError) := by
  have hcall : (ParallelismArgumentType.call v).isOk
      = (pyIsDigit v || v == PARALLELISM_ALL) := by
    unfold ParallelismArgumentType.call
    cases hpd : pyIsDigit v with
    | true => simp [hpd, Except.isOk, Except.toBool]
    | false =>
      by_cases h2 : v = PARALLELISM_ALL
      · subst h2; simp [hpd, Except.isOk, Except.toBool]
      · simp [hpd, h2, Except.isOk, Except.toBool]
  constructor
  · rw [hcall]
    simp only [Bool.or_eq_true, beq_iff_eq, pyIsDigit, Bool.and_eq_true,
      Bool.not_eq_true', isEmpty_false_iff, List.all_eq_true,
      decide_eq_true_eq, PARALLELISM_ALL]
  · intro hbad args outcomeOf hv
    subst hv
    unfold perdirRun
    cases hc : ParallelismArgumentType.call args.parallelValue with
    | error e => rfl
    | ok par => rw [hc] at hbad; simp [Except.isOk, Except.toBool] at hbad

/-- C3 witness: the malformed value "2x" makes the whole run a
configuration error — no task runs. -/
theorem c3_config_error_witness :
    perdirRun { parallelValue := "2x", paths := [⟨"/a", true⟩],
                cmdArgv := ["true"], failed_output_only := false }
      (fun _ => SpawnOutcome.spawnFailure) = RunOutcome.configError :=
  (c3_parallelism_accepted_iff "2x").2 (by decide) _ _ rfl

/-- C5: a one-token command spec is interpreted by a command shell
(`create_subprocess_shell` on the single string); a spec of two or more
tokens is executed directly as program + argv (`create_subprocess_exec`)
with no shell interposed; in both cases the child runs with the task's
directory as its working directory and stderr merged into the captured
stdout stream. -/
theorem c5_shell_dispatch (path : String) (command : List String) :
    (∀ c, command = [c] →
      ExecuteCommand.subprocessInvocation path command =
        { call := ExecuteCommand.ChildCall.shell c, cwd := path,
          stderrMergedToStdout := true, outputCaptured := true }) ∧
    (2 ≤ command.length →
      ExecuteCommand.subprocessInvocation path command =
        { call := ExecuteCommand.ChildCall.exec command, cwd := path,
          stderrMergedToStdout := true, outputCaptured := true }) := by
  constructor
  · intro c hc; subst hc; rfl
  · intro h
    unfold ExecuteCommand.subprocessInvocation ExecuteCommand.isShellCommand
    have hne : (command.length == 1) = false := by
      simp only [beq_eq_false_iff_ne, ne_eq]
      omega
    rw [hne]
    simp

/-- C5 witness: a single shell string goes through the shell; a two-token
vector is executed directly. -/
theorem c5_dispatch_witness :
    ExecuteCommand.subprocessInvocation "/a" ["ls -l | wc"] =
      { call := ExecuteCommand.ChildCall.shell "ls -l | wc", cwd := "/a",
        stderrMergedToStdout := true, outputCaptured := true } ∧
    ExecuteCommand.subprocessInvocation "/b" ["git", "status"] =
      { call := ExecuteCommand.ChildCall.exec ["git", "status"], cwd := "/b",
        stderrMergedToStdout := true, outputCaptured := true } :=
  ⟨(c5_shell_dispatch "/a" ["ls -l | wc"]).1 _ rfl,
   (c5_shell_dispatch "/b" ["git", "status"]).2 (by decide)⟩

/-- C6: each completed task's single report: a success in verbose mode is
the green header ">> path", the rstripped output, and a blank line; a
success in failed-only mode is just the green header; a failure in either
mode is the red header ">> path (exitCode)", the rstripped output, and a
blank line; and stdout is flushed after every report. -/
theorem c6_report_shape (path : String) (exitCode : Int) (output : String) :
    (ExecuteCommand.printResult path false true exitCode output).text =
      colored (">> " ++ path) "green" ++ osLinesep ++ pyRstrip output
        ++ osLinesep ++ "\n" ∧
    (ExecuteCommand.printResult path true true exitCode output).text =
      colored (">> " ++ path) "green" ++ "\n" ∧
    (∀ failedOnly : Bool,
      (ExecuteCommand.printResult path failedOnly false exitCode output).text =
        colored (">> " ++ path ++ " (" ++ toString exitCode ++ ")") "red"
          ++ osLinesep ++ pyRstrip output ++ osLinesep ++ "\n") ∧
    (∀ failedOnly success : Bool,
      (ExecuteCommand.printResult path failedOnly success exitCode output).flushed
        = true) := by
  refine ⟨rfl, rfl, fun failedOnly => rfl, fun failedOnly success => ?_⟩
  cases success <;> cases failedOnly <;> rfl

/-- C7: in a run with finite capacity over more tasks than slots, every
reachable configuration has at most `workerCount` tasks holding an
admission slot (held + free slots always equal the capacity), and from any
configuration with an active task, that task's exit — normal or raising —
is a legal step releasing exactly one slot (`slots + 1`), admitting exactly
one pending task. -/
theorem c7_bounded_admission (taskCount workerCount : Nat)
    (_hfinite : workerCount < taskCount) (s : SemState)
    (hreach : SemReachable taskCount workerCount s) :
    s.active ≤ workerCount ∧
    s.active + s.slots = workerCount ∧
    (∀ _raised : Bool, 0 < s.active →
      SemStep s { waiting := s.waiting, active := s.active - 1,
                  finished := s.finished + 1, slots := s.slots + 1 }) := by
  obtain ⟨h1, _h2⟩ := semInvariant taskCount workerCount s hreach
  exact ⟨by omega, h1, fun raised ha => SemStep.finish s raised ha⟩

/-- C7 witness: with two tasks over one slot, after the first acquisition
one task is active (at the capacity bound), no slot is free, and both exit
paths of the active task release exactly one slot. -/
theorem c7_admission_witness :
    1 ≤ 1 ∧ 1 + 0 = 1 ∧
    (∀ _raised : Bool, 0 < 1 →
      SemStep ⟨1, 1, 0, 0⟩ ⟨1, 0, 1, 1⟩) :=
  c7_bounded_admission 2 1 (by decide) ⟨1, 1, 0, 0⟩
    (Relation.ReflTransGen.single
      (SemStep.acquire (initSemState 2 1) (by decide) (by decide)))

/-- C8: for each installed signal (SIGINT and SIGTERM) the handler prints
the single red "Interrupt received. Aborting." notice and exits the whole
process with status 1; its effect is independent of its arguments — hence
of how many tasks have completed — and `sys.exit` fires directly, with no
await of in-flight executors. -/
theorem c8_interrupt_hard_stop (sig : Nat) (_hsig : sig ∈ installedSignals)
    (frame : Option Unit) :
    SignalHandler.handle (some sig) frame =
      { printedText := colored "Interrupt received. Aborting." "red" ++ "\n",
        exitStatus := 1 } ∧
    (SignalHandler.handle (some sig) frame).exitStatus = 1 ∧
    (∀ (sig' : Option Nat) (frame' : Option Unit),
      SignalHandler.handle sig' frame' = SignalHandler.handle (some sig) frame) :=
  ⟨rfl, rfl, fun _ _ => rfl⟩

/-- C8 witness: on SIGINT the handler's effect is the red notice and exit
status 1. -/
theorem c8_interrupt_witness :
    SignalHandler.handle (some SIGINT) none =
      { printedText := colored "Interrupt received. Aborting." "red" ++ "\n",
        exitStatus := 1 } :=
  (c8_interrupt_hard_stop SIGINT (by decide) none).1

/-- C9: decoding any captured byte stream with errors='replace' never
raises — every task whose spawn succeeded obtains a text output value, for
arbitrary (including non-UTF-8) bytes — and an invalid byte comes out as
U+FFFD, where strict decoding of the same bytes would raise. -/
theorem c9_decode_total (raw : List Nat) :
    (∃ s, pyDecodeUtf8 raw Utf8Errors.replace = Except.ok s) ∧
    (∀ ec : Int, ∃ out,
      ExecuteCommand.executeCommand (SpawnOutcome.spawned ec raw)
        = Except.ok (ec, out)) ∧
    pyDecodeUtf8 [0xFF, 0x68, 0x69] Utf8Errors.replace =
      Except.ok (String.mk [replacementChar, 'h', 'i']) ∧
    pyDecodeUtf8 [0xFF, 0x68, 0x69] Utf8Errors.strict = Except.error () :=
  ⟨pyDecodeUtf8_replace_ok raw, fun ec => executeCommand_spawned ec raw, rfl, rfl⟩

/-- C10: whenever a report includes the captured output (any failure, or a
success in verbose mode), the printed output is the captured text with all
trailing whitespace removed (str.rstrip) followed by exactly one blank
line: appending any whitespace tail to the output leaves the report
unchanged, the body printed is `pyRstrip output` framed by single line
separators, and the rstripped body never ends in whitespace. -/
theorem c10_rstrip_output (path : String) (failedOnly success : Bool)
    (exitCode : Int) (output ws : String)
    (hws : ws.data.all pyIsSpace = true)
    (hincl : ¬(success = true ∧ failedOnly = true)) :
    ExecuteCommand.printResult path failedOnly success exitCode (output ++ ws) =
      ExecuteCommand.printResult path failedOnly success exitCode output ∧
    (∃ header,
      (ExecuteCommand.printResult path failedOnly success exitCode output).text =
        header ++ osLinesep ++ pyRstrip output ++ osLinesep ++ "\n") ∧
    (∀ c, (pyRstrip output).data.getLast? = some c → pyIsSpace c = false) := by
  have hrs := pyRstrip_append_ws output ws hws
  refine ⟨?_, ?_, fun c hc => pyRstrip_no_trailing output c hc⟩
  · unfold ExecuteCommand.printResult
    rw [hrs]
  · cases success with
    | false =>
      exact ⟨colored (">> " ++ path ++ " (" ++ toString exitCode ++ ")") "red", rfl⟩
    | true =>
      cases failedOnly with
      | false => exact ⟨colored (">> " ++ path) "green", rfl⟩
      | true => exact absurd ⟨rfl, rfl⟩ hincl

/-- C4 (counterexample): the parallelism value "0" is accepted by the
converter, and with it and one valid directory `main()` creates
`asyncio.Semaphore(0)`: every task blocks forever inside `async with`, the
run deadlocks and the process never exits — there is no exit status at
all, refuting "for every run, the process exit status is 0 or 1". -/
theorem c4_deadlock_cex :
    perdirRun ⟨"0", [⟨"/a", true⟩], ["true"], false⟩
      (fun _ => SpawnOutcome.spawned 0 []) = RunOutcome.deadlocked ∧
    processExitStatus (perdirRun ⟨"0", [⟨"/a", true⟩], ["true"], false⟩
      (fun _ => SpawnOutcome.spawned 0 [])) = none ∧
    (ParallelismArgumentType.call "0").isOk = true :=
  ⟨rfl, rfl, rfl⟩

/-- C4 (amended): in a run with a valid configuration, every task's program
spawning, and a nonzero worker count (or no valid target directory, in
which case the empty semaphore is never contended), `main()` returns 1
exactly when some created task exited nonzero and 0 otherwise,
`entrypoint()` passes the value to `sys.exit`, one report is produced per
created task, and with zero valid target directories no task is created,
nothing is reported, and the run finishes with exit status 0.  (With an
accepted worker count of 0 and at least one task, the run instead
deadlocks and never exits.) -/
theorem c4_exit_status (args : CliArgs) (outcomeOf : String → SpawnOutcome)
    (ecOf : String → Int) (rawOf : String → List Nat) (par : Parallelism)
    (hconf : ParallelismArgumentType.call args.parallelValue = Except.ok par)
    (hcmd : args.cmdArgv ≠ [])
    (hwc : mainWorkerCount par args.paths ≠ 0 ∨ mainValidPaths args.paths = [])
    (hspawn : ∀ p, outcomeOf p = SpawnOutcome.spawned (ecOf p) (rawOf p)) :
    ∃ reports,
      perdirRun args outcomeOf = RunOutcome.finished reports
        (if (mainValidPaths args.paths).any (fun p => !(ecOf p.name == 0))
          then 1 else 0) ∧
      reports.length = mainTaskCount args.paths ∧
      processExitStatus (perdirRun args outcomeOf) =
        some (if (mainValidPaths args.paths).any (fun p => !(ecOf p.name == 0))
          then 1 else 0) ∧
      (mainValidPaths args.paths = [] →
        perdirRun args outcomeOf = RunOutcome.finished [] 0) := by
  have hemp : args.cmdArgv.isEmpty = false := by
    cases hargs : args.cmdArgv with
    | nil => exact absurd hargs hcmd
    | cons a l => rfl
  have hcond : ¬(mainWorkerCount par args.paths = 0 ∧ mainValidPaths args.paths ≠ []) := by
    rcases hwc with h | h
    · exact fun hc => h hc.1
    · exact fun hc => hc.2 h
  obtain ⟨reports, hrep, hlen⟩ := schedulerGo_map_ok
    (fun p => ExecuteCommand.«do» p.name args.failed_output_only (outcomeOf p.name))
    (fun p => ecOf p.name == 0)
    (mainValidPaths args.paths)
    (fun p _ => by
      show ∃ r, ExecuteCommand.«do» p.name args.failed_output_only (outcomeOf p.name)
        = Except.ok (ecOf p.name == 0, r)
      rw [hspawn p.name]
      obtain ⟨out, hout⟩ :=
        do_spawned p.name args.failed_output_only (ecOf p.name) (rawOf p.name)
      exact ⟨_, hout⟩)
    false
  have hrun : perdirRun args outcomeOf = RunOutcome.finished reports
      (if (mainValidPaths args.paths).any (fun p => !(ecOf p.name == 0))
        then 1 else 0) := by
    unfold perdirRun schedulerRun
    rw [hconf, hemp]
    simp only [Bool.false_eq_true, if_false, hcond, hrep, Bool.false_or]
  refine ⟨reports, hrun, hlen, by rw [hrun]; rfl, fun hnil => ?_⟩
  have hrep0 : reports = [] := by
    have h0 : reports.length = 0 := by rw [hlen, hnil]; rfl
    exact List.eq_nil_of_length_eq_zero h0
  rw [hrun, hrep0, hnil]
  simp

/-- C4 witness: one directory, worker count 1, a command exiting 0: the
run finishes with one report and exit status 0. -/
theorem c4_exit_witness :
    ∃ reports,
      perdirRun ⟨"1", [⟨"/a", true⟩], ["true"], false⟩
        (fun _ => SpawnOutcome.spawned 0 []) = RunOutcome.finished reports 0 ∧
      reports.length = 1 ∧
      processExitStatus (perdirRun ⟨"1", [⟨"/a", true⟩], ["true"], false⟩
        (fun _ => SpawnOutcome.spawned 0 [])) = some 0 ∧
      (mainValidPaths [⟨"/a", true⟩] = [] →
        perdirRun ⟨"1", [⟨"/a", true⟩], ["true"], false⟩
          (fun _ => SpawnOutcome.spawned 0 []) = RunOutcome.finished [] 0) :=
  c4_exit_status ⟨"1", [⟨"/a", true⟩], ["true"], false⟩
    (fun _ => SpawnOutcome.spawned 0 []) (fun _ => 0) (fun _ => [])
    (Parallelism.num 1) rfl (by decide) (Or.inl (by decide)) (fun p => rfl)

/-- C10 witness: trailing newlines of the command's output are not printed
verbatim; the verbose success report for output "hi" ends in the rstripped
body and one blank line. -/
theorem c10_rstrip_witness :
    ExecuteCommand.printResult "/a" false true 0 ("hi" ++ "\n\n") =
      ExecuteCommand.printResult "/a" false true 0 "hi" ∧
    (∃ header,
      (ExecuteCommand.printResult "/a" false true 0 "hi").text =
        header ++ osLinesep ++ pyRstrip "hi" ++ osLinesep ++ "\n") ∧
    (∀ c, (pyRstrip "hi").data.getLast? = some c → pyIsSpace c = false) :=
  c10_rstrip_output "/a" false true 0 "hi" "\n\n" (by decide) (by simp)

end Perdir
